import Mathlib

/-!
Shallow embedding of the live game-session logic of the Ether Excel
classroom-quiz app (Supabase/React).  Database tables are embedded as lists of
rows, a Supabase `insert` as list append (`.select()` returns the inserted
rows), `update` as a field rewrite of the matching row, `delete` as a filter.
Timestamps are naturals, uuids are strings.  Client component state
(`WaitingRoom`) is an explicit record and its handlers are state-passing
functions.  Each definition carries the name of the source function or type it
embeds.
-/

namespace EtherExcel

/-- `status` column of `game_sessions` (types/index.ts, migrations). -/
inductive SessionStatus
  | not_started
  | in_progress
  | completed
deriving DecidableEq, Repr

/-- `status` column of `students` (migration `steep_shore`: waiting/playing/completed). -/
inductive StudentStatus
  | waiting
  | playing
  | completed
deriving DecidableEq, Repr

/-- `GameState.status` of the client (types/index.ts). -/
inductive GameStatus
  | waiting
  | countdown
  | playing
  | results
deriving DecidableEq, Repr

/-- Row of the `students` table.  `joined_at` and `status` take the column
defaults (`now()`, `'waiting'`) when an insert omits them. -/
structure Student where
  id : String
  name : String
  session_id : Option String
  joined_at : Nat
  status : StudentStatus
deriving DecidableEq, Repr

/-- Row of the `game_sessions` table (migration `super_valley`). -/
structure GameSession where
  id : String
  chapter_id : Option String
  teacher_name : String
  status : SessionStatus
  game_code : String
  started_at : Option Nat
  ended_at : Option Nat
  created_at : Nat
  banned_students : List String
deriving DecidableEq, Repr

/-- Row of the `responses` table: one answer record. -/
structure AnswerRecord where
  student_id : String
  question_id : String
  selected_option : String
  is_correct : Bool
  submitted_at : Nat
deriving DecidableEq, Repr

/-- `Topic` row (types/index.ts). -/
structure Topic where
  id : String
  chapter_id : String
  topic_name : String
  topic_coverage : String
  topic_narrative : String
deriving DecidableEq, Repr

/-- `Question` row (types/index.ts). -/
structure Question where
  id : String
  topic_id : String
  question_stem : String
  option_a : String
  option_b : String
  option_c : String
  option_d : String
  correct_option : String
deriving DecidableEq, Repr

/-- `saveStudentResponse` (services/database.ts): a plain `insert` into
`responses` — appends the new row unconditionally, with no lookup of an
existing record for the (student, question) pair and no uniqueness constraint
in the schema. -/
def saveStudentResponse (responses : List AnswerRecord)
    (studentId questionId selectedOption : String) (isCorrect : Bool) (now : Nat) :
    List AnswerRecord :=
  responses ++ [{ student_id := studentId, question_id := questionId,
                  selected_option := selectedOption, is_correct := isCorrect,
                  submitted_at := now }]

/-- Number of answer records in the ledger for one (student, question) pair. -/
def countPair (responses : List AnswerRecord) (studentId questionId : String) : Nat :=
  (responses.filter
    (fun r => r.student_id == studentId && r.question_id == questionId)).length

/-- `updateGameSessionStatus` (services/database.ts): `update({ status })` on
the matching row — writes whatever status is passed, with no check against the
current value. -/
def updateGameSessionStatus (session : GameSession) (status : SessionStatus) :
    GameSession :=
  { session with status := status }

/-- Position of a status along the documented forward order
not_started → in_progress → completed. -/
def statusRank : SessionStatus → Nat
  | SessionStatus.not_started => 0
  | SessionStatus.in_progress => 1
  | SessionStatus.completed => 2

/-- `removeStudent` (services/database.ts in part_005): `delete` of the
matching `students` row. -/
def removeStudent (students : List Student) (studentId : String) : List Student :=
  students.filter (fun s => !(s.id == studentId))

/-- `banStudentFromSession` (services/database.ts in part_005): reads the
session's `banned_students`, pushes the id only if not already present,
writes the array back, then deletes the student row.  It touches no other
session field and never reads or writes `responses`. -/
def banStudentFromSession (session : GameSession) (students : List Student)
    (studentId : String) : GameSession × List Student :=
  let bannedStudents := session.banned_students
  let bannedStudents' :=
    if bannedStudents.contains studentId then bannedStudents
    else bannedStudents ++ [studentId]
  ({ session with banned_students := bannedStudents' }, removeStudent students studentId)

/-- Local state of one player's `WaitingRoom` client (part_007): game-flow
pointer, per-question answer state and running tallies. -/
structure GameFlowState where
  currentTopicIndex : Nat
  currentQuestionIndex : Nat
  showingNarrative : Bool
  gameStatus : GameStatus
  answered : Bool
  selectedOption : Option String
  isCorrect : Option Bool
  correctAnswers : Nat
  totalAnswered : Nat
deriving DecidableEq, Repr

/-- `getCurrentTopic` (WaitingRoom): `topics[currentTopicIndex]` or null when
out of range. -/
def getCurrentTopic (topics : List Topic) (flow : GameFlowState) : Option Topic :=
  topics.get? flow.currentTopicIndex

/-- `getTopicQuestions` (WaitingRoom): `questions[topic.id] || []` on the
`Record<string, Question[]>` held by the app context, embedded as an
association list. -/
def getTopicQuestions (questions : List (String × List Question)) :
    Option Topic → List Question
  | none => []
  | some t => ((questions.find? (fun p => p.1 == t.id)).map Prod.snd).getD []

/-- `getCurrentQuestion` (WaitingRoom): current topic's question list indexed
by `currentQuestionIndex`, or null when out of range. -/
def getCurrentQuestion (topics : List Topic) (questions : List (String × List Question))
    (flow : GameFlowState) : Option Question :=
  (getTopicQuestions questions (getCurrentTopic topics flow)).get? flow.currentQuestionIndex

/-- `updateStudentStatus` (services/database.ts): `update({ status })` on the
matching `students` row. -/
def updateStudentStatus (students : List Student) (studentId : String)
    (status : StudentStatus) : List Student :=
  students.map (fun s => if s.id == studentId then { s with status := status } else s)

/-- `handleAnswer` (WaitingRoom): on the current question, record the chosen
option locally (selected option, correctness, answered flag, tallies) and
insert the response row.  The correctness is `option === correct_option`.  The
source then schedules `moveToNextQuestion` after 3 s. -/
def handleAnswer (topics : List Topic) (questions : List (String × List Question))
    (userId : String) (now : Nat) (option : String)
    (flow : GameFlowState) (responses : List AnswerRecord) :
    GameFlowState × List AnswerRecord :=
  match getCurrentQuestion topics questions flow with
  | none => (flow, responses)
  | some currentQuestion =>
    let correct := option == currentQuestion.correct_option
    ({ flow with selectedOption := some option, isCorrect := some correct,
                 answered := true, totalAnswered := flow.totalAnswered + 1,
                 correctAnswers :=
                   if correct then flow.correctAnswers + 1 else flow.correctAnswers },
     saveStudentResponse responses userId currentQuestion.id option correct now)

/-- An answer click as the `QuestionScreen` dispatches it: the option buttons
are `disabled={answered}` and their onClick is `!answered && onAnswer(...)`,
so `handleAnswer` runs only while the question is unanswered. -/
def optionClick (topics : List Topic) (questions : List (String × List Question))
    (userId : String) (now : Nat) (option : String)
    (flow : GameFlowState) (responses : List AnswerRecord) :
    GameFlowState × List AnswerRecord :=
  if flow.answered then (flow, responses)
  else handleAnswer topics questions userId now option flow responses

/-- `handleTimeUp` (WaitingRoom): when the 60-second question timer of this
client expires and the question is unanswered, mark it answered with no
selection, incorrect, bump the answered tally, and insert a response row with
the literal `'timeout'` option and `is_correct = false`.  The source then
schedules the same `moveToNextQuestion` after 3 s as `handleAnswer` does. -/
def handleTimeUp (topics : List Topic) (questions : List (String × List Question))
    (userId : String) (now : Nat)
    (flow : GameFlowState) (responses : List AnswerRecord) :
    GameFlowState × List AnswerRecord :=
  if flow.answered then (flow, responses)
  else
    match getCurrentQuestion topics questions flow with
    | none => (flow, responses)
    | some currentQuestion =>
      ({ flow with answered := true, selectedOption := none,
                   isCorrect := some false, totalAnswered := flow.totalAnswered + 1 },
       saveStudentResponse responses userId currentQuestion.id "timeout" false now)

/-- The whole mutable state one advancing step touches: the invoking client's
flow state, the students table, the session row and the response ledger. -/
structure World where
  flow : GameFlowState
  students : List Student
  session : GameSession
  responses : List AnswerRecord
deriving DecidableEq, Repr

/-- `moveToNextQuestion` (WaitingRoom): next question in the topic when one
remains, else narrative of the next topic when one remains, else the client
enters `results` and `updateStudentStatus(user.id, 'completed')` runs for the
invoking student only.  Afterwards the per-question answer state is reset.
JS computes `length - 1` on numbers; for `length = 0` the comparison
`i < -1` is false exactly as Nat truncated subtraction makes `i < 0` false. -/
def moveToNextQuestion (topics : List Topic) (questions : List (String × List Question))
    (userId : String) (w : World) : World :=
  let currentTopic := getCurrentTopic topics w.flow
  let topicQuestions := getTopicQuestions questions currentTopic
  let w' :=
    if w.flow.currentQuestionIndex < topicQuestions.length - 1 then
      { w with flow :=
          { w.flow with currentQuestionIndex := w.flow.currentQuestionIndex + 1 } }
    else if w.flow.currentTopicIndex < topics.length - 1 then
      { w with flow :=
          { w.flow with currentTopicIndex := w.flow.currentTopicIndex + 1,
                        currentQuestionIndex := 0, showingNarrative := true } }
    else
      { w with flow := { w.flow with gameStatus := GameStatus.results },
               students := updateStudentStatus w.students userId StudentStatus.completed }
  { w' with flow :=
      { w'.flow with answered := false, selectedOption := none, isCorrect := none } }

/-- One participant's client as seen by the timeout event: its identity and
its flow state. -/
structure Client where
  userId : String
  flow : GameFlowState
deriving DecidableEq, Repr

/-- The per-question timer is owned by each client (`startQuestionTimer`), so
the logical "question timeout" event is `handleTimeUp` firing at every active
client.  This folds `handleTimeUp` over the clients against the shared
ledger. -/
def onQuestionTimeout (topics : List Topic) (questions : List (String × List Question))
    (now : Nat) :
    List Client → List AnswerRecord → List Client × List AnswerRecord
  | [], responses => ([], responses)
  | c :: cs, responses =>
    let r := handleTimeUp topics questions c.userId now c.flow responses
    let rest := onQuestionTimeout topics questions now cs r.2
    ({ c with flow := r.1 } :: rest.1, rest.2)

/-- The record `handleTimeUp` synthesizes for a client, when it synthesizes
one (unanswered and a current question in range). -/
def timeoutRecord (topics : List Topic) (questions : List (String × List Question))
    (now : Nat) (c : Client) : Option AnswerRecord :=
  if c.flow.answered then none
  else
    (getCurrentQuestion topics questions c.flow).map
      (fun q => { student_id := c.userId, question_id := q.id,
                  selected_option := "timeout", is_correct := false,
                  submitted_at := now })

/-- `getStudentResponses` (services/database.ts): the `responses` rows of one
student. -/
def getStudentResponses (responses : List AnswerRecord) (studentId : String) :
    List AnswerRecord :=
  responses.filter (fun r => r.student_id == studentId)

/-- `PlayerStats` (types/index.ts): one leaderboard entry. -/
structure PlayerStats where
  studentId : String
  studentName : String
  currentQuestion : Nat
  correctAnswers : Nat
  totalAnswered : Nat
  score : Nat
deriving DecidableEq, Repr

/-- The per-student stats block `fetchLeaderboardData` (LobbyView) pushes:
correct count, answered count, `score = correctAnswers * 10`, and the current
question ordinal capped at the total question count. -/
def playerStatsFor (totalQuestions : Nat) (responses : List AnswerRecord)
    (student : Student) : PlayerStats :=
  let rs := getStudentResponses responses student.id
  let correctAnswers := (rs.filter (fun r => r.is_correct)).length
  let totalAnswered := rs.length
  let score := correctAnswers * 10
  let currentQuestion :=
    if totalAnswered > totalQuestions then totalQuestions else totalAnswered
  { studentId := student.id, studentName := student.name,
    currentQuestion := currentQuestion, correctAnswers := correctAnswers,
    totalAnswered := totalAnswered, score := score }

/-- Stable insertion for `sortStats`: the new entry goes in front of the first
entry whose score it meets or beats, so earlier input entries stay in front of
equal-scored later ones. -/
def insertStat (p : PlayerStats) : List PlayerStats → List PlayerStats
  | [] => [p]
  | q :: qs => if q.score ≤ p.score then p :: q :: qs else q :: insertStat p qs

/-- `stats.sort((a, b) => b.score - a.score)` (LobbyView): ECMAScript sort is
stable and honors the comparator, so the result is the unique reordering that
is descending by score and keeps input order among equal scores — which this
stable insertion sort computes. -/
def sortStats : List PlayerStats → List PlayerStats
  | [] => []
  | p :: ps => insertStat p (sortStats ps)

/-- `fetchLeaderboardData` (LobbyView): per student in the `students` list (as
fetched, i.e. the iteration order of the registry), build the stats block from
their responses, then sort by score descending. -/
def fetchLeaderboardData (totalQuestions : Nat) (students : List Student)
    (responses : List AnswerRecord) : List PlayerStats :=
  sortStats (students.map (playerStatsFor totalQuestions responses))

/-- `getAllStudents` (services/database.ts) orders by `joined_at` descending;
this is the registry iteration order `fetchLeaderboardData` receives.
Embedded as a stable insertion sort (descending by `joined_at`); ties keep
table order, which the database leaves unspecified. -/
def insertStudentByJoined (s : Student) : List Student → List Student
  | [] => [s]
  | t :: ts => if t.joined_at ≤ s.joined_at then s :: t :: ts
               else t :: insertStudentByJoined s ts

/-- See `insertStudentByJoined`. -/
def getAllStudents : List Student → List Student
  | [] => []
  | s :: ss => insertStudentByJoined s (getAllStudents ss)

/-- `joinAsPlayer` (context/AppContext.tsx): inserts a brand-new `students`
row `{ name, session_id: 'temp-session-id' }` — it never reads the game
session, its status or its banned list, and never looks for an existing row
with the same name.  `id`, `joined_at` and `status` take the database
defaults (fresh uuid, `now()`, `'waiting'`), passed here explicitly. -/
def joinAsPlayer (students : List Student) (name : String) (newId : String)
    (now : Nat) : List Student × Student :=
  let student : Student :=
    { id := newId, name := name, session_id := some "temp-session-id",
      joined_at := now, status := StudentStatus.waiting }
  (students ++ [student], student)

/-- `addStudentToSession` (services/database.ts in part_005): also a plain
insert of `{ name, joined_at, status: 'waiting' }`, no session lookup. -/
def addStudentToSession (students : List Student) (name : String) (newId : String)
    (now : Nat) : List Student × Student :=
  let student : Student :=
    { id := newId, name := name, session_id := none,
      joined_at := now, status := StudentStatus.waiting }
  (students ++ [student], student)

/-- The 32-character alphabet of `generateGameCode` (services/database.ts in
part_005), chosen to omit the confusable 0/O/1/I/L glyphs — the source comment
says "Omit confusing characters". -/
def gameCodeChars : List Char := "ABCDEFGHJKLMNPQRSTUVWXYZ23456789".toList

/-- `generateGameCode` (part_005): six draws of
`chars.charAt(Math.floor(Math.random() * chars.length))`; the six random
indices (each in `[0, 32)`) are the function's input here. -/
def generateGameCode (randoms : Fin 6 → Fin 32) : String :=
  String.mk (List.ofFn (fun i : Fin 6 =>
    gameCodeChars.get (Fin.cast (by decide) (randoms i))))

/-- Uppercased base-36 digit characters, as
`Math.random().toString(36).toUpperCase()` prints them. -/
def base36UpperChars : List Char := "0123456789ABCDEFGHIJKLMNOPQRSTUVWXYZ".toList

/-- The inline code generator of `getOrCreateDefaultGameSession`
(services/database.ts line 182):
`Math.random().toString(36).substring(2, 8).toUpperCase()`.  `toString(36)`
prints `0.` followed by the base-36 digits of the fraction with trailing
zeros omitted (just `0` for zero); `substring(2, 8)` keeps the first six of
those digit characters, possibly fewer when the printed expansion is short.
The printed digit list is the input here; e.g. `Math.random() = 0.5` prints
`0.i`, i.e. the digit list `[18]`. -/
def jsGameCode (digits : List (Fin 36)) : String :=
  String.mk ((digits.take 6).map (fun d => base36UpperChars.get (Fin.cast (by decide) d)))

/-- `createGameSession` (part_005): inserts a fresh `not_started` session row
with the given code.  It never queries existing sessions, so no code collision
can be detected, rejected or retried. -/
def createGameSession (sessions : List GameSession) (chapterId : Option String)
    (teacherName : String) (gameCode : String) (newId : String) (now : Nat) :
    List GameSession × GameSession :=
  let session : GameSession :=
    { id := newId, chapter_id := chapterId, teacher_name := teacherName,
      status := SessionStatus.not_started, game_code := gameCode,
      started_at := some now, ended_at := none, created_at := now,
      banned_students := [] }
  (sessions ++ [session], session)

/-- The `order('created_at', descending).limit(1)` pick over the `not_started`
sessions in `getOrCreateDefaultGameSession`: the latest-created such session,
if any (ties resolved to the earlier row, an order the database leaves
unspecified). -/
def latestNotStarted (sessions : List GameSession) : Option GameSession :=
  (sessions.filter (fun s => s.status == SessionStatus.not_started)).foldl
    (fun acc s =>
      match acc with
      | none => some s
      | some t => if t.created_at < s.created_at then some s else some t)
    none

/-- `getOrCreateDefaultGameSession` (services/database.ts lines 158-209):
return the latest `not_started` session when one exists; otherwise insert a
new session whose code comes from the inline `Math.random().toString(36)`
generator — with no uniqueness check against existing codes and no retry. -/
def getOrCreateDefaultGameSession (sessions : List GameSession)
    (digits : List (Fin 36)) (chapterId : Option String)
    (teacherName : Option String) (newId : String) (now : Nat) :
    List GameSession × GameSession :=
  match latestNotStarted sessions with
  | some s => (sessions, s)
  | none =>
    let gameCode := jsGameCode digits
    let session : GameSession :=
      { id := newId, chapter_id := chapterId,
        teacher_name := teacherName.getD "Anonymous Teacher",
        status := SessionStatus.not_started, game_code := gameCode,
        started_at := some now, ended_at := none, created_at := now,
        banned_students := [] }
    (sessions ++ [session], session)

/-- A generated multiple-choice question as the Content Generator emits it
(`GeneratedQuestion` in lib/openai). -/
structure GeneratedQuestion where
  topicId : String
  stem : String
  optionA : String
  optionB : String
  optionC : String
  optionD : String
  correctOption : String
deriving DecidableEq, Repr

/-- A formatted `questions` row as `saveQuestions` inserts it. -/
structure FormattedQuestion where
  topic_id : String
  question_stem : String
  option_a : String
  option_b : String
  option_c : String
  option_d : String
  correct_option : String
deriving DecidableEq, Repr

/-- `topicIdMap[key]` on the `Record<string, string>`: the mapped id when the
key has an entry. -/
def recordGet (topicIdMap : List (String × String)) (key : String) : Option String :=
  (topicIdMap.find? (fun p => p.1 == key)).map Prod.snd

/-- JS truthiness of `topicIdMap[q.topicId]`: `undefined` (no entry) and the
empty string are falsy, every other string is truthy. -/
def truthyLookup (topicIdMap : List (String × String)) (key : String) : Bool :=
  match recordGet topicIdMap key with
  | none => false
  | some s => !(s == "")

/-- The row `saveQuestions` builds for one valid question. -/
def formatQuestion (topicIdMap : List (String × String)) (q : GeneratedQuestion) :
    FormattedQuestion :=
  { topic_id := (recordGet topicIdMap q.topicId).getD "",
    question_stem := q.stem, option_a := q.optionA, option_b := q.optionB,
    option_c := q.optionC, option_d := q.optionD,
    correct_option := q.correctOption }

/-- The batch split of `saveQuestions`: slices of 20 in order. -/
def batchesOf20 : List FormattedQuestion → List (List FormattedQuestion)
  | [] => []
  | x :: xs => (x :: xs).take 20 :: batchesOf20 ((x :: xs).drop 20)
  termination_by l => l.length
  decreasing_by simp [List.length_drop]; omega

/-- `saveQuestions` (services/database.ts lines 81-153): keep the questions
whose `topicIdMap[q.topicId]` is truthy, format them, and insert — in batches
of 20 accumulated in order when more than 50 rows remain, in one insert
otherwise.  Each insert's `.select()` returns the inserted rows, so the
function returns the accumulated rows. -/
def saveQuestions (questions : List GeneratedQuestion)
    (topicIdMap : List (String × String)) : List FormattedQuestion :=
  let validQuestions := questions.filter (fun q => truthyLookup topicIdMap q.topicId)
  let formattedQuestions := validQuestions.map (formatQuestion topicIdMap)
  if formattedQuestions.length > 50 then
    (batchesOf20 formattedQuestions).foldl (fun allData batch => allData ++ batch) []
  else
    formattedQuestions

/-- `banStudentFromSession` as it acts on the whole state: it reads and writes
the session row and the students table and nothing else — in particular the
response ledger is untouched. -/
def banStudentWorld (studentId : String) (w : World) : World :=
  let result := banStudentFromSession w.session w.students studentId
  { w with session := result.1, students := result.2 }

/-- A fixed session used for concrete evaluations: mid-game, nobody banned. -/
def demoSession : GameSession :=
  { id := "sess1", chapter_id := some "ch1", teacher_name := "T",
    status := SessionStatus.in_progress, game_code := "ABCDEF",
    started_at := some 0, ended_at := none, created_at := 0,
    banned_students := [] }

/-- A completed session that has banned the student `s1`. -/
def demoClosedSession : GameSession :=
  { id := "sess9", chapter_id := some "ch1", teacher_name := "T",
    status := SessionStatus.completed, game_code := "QRSTUV",
    started_at := some 0, ended_at := some 9, created_at := 0,
    banned_students := ["s1"] }

/-- An `in_progress` session whose code is the single ambiguous character
`I` — exactly what the inline generator emits for `Math.random() = 0.5`. -/
def demoCollidingSession : GameSession :=
  { id := "sessI", chapter_id := none, teacher_name := "T",
    status := SessionStatus.in_progress, game_code := "I",
    started_at := some 0, ended_at := none, created_at := 0,
    banned_students := [] }

/-- A one-topic, one-question content load. -/
def demoQuestion1 : Question :=
  { id := "q1", topic_id := "t1", question_stem := "2+2?",
    option_a := "3", option_b := "4", option_c := "5", option_d := "6",
    correct_option := "A" }

/-- See `demoQuestion1`. -/
def demoTopic1 : Topic :=
  { id := "t1", chapter_id := "ch1", topic_name := "T1",
    topic_coverage := "c", topic_narrative := "n" }

/-- See `demoQuestion1`. -/
def demoTopics : List Topic := [demoTopic1]

/-- See `demoQuestion1`. -/
def demoQuestionMap : List (String × List Question) := [("t1", [demoQuestion1])]

/-- A client sitting unanswered on the first (and last) question. -/
def demoFlow : GameFlowState :=
  { currentTopicIndex := 0, currentQuestionIndex := 0, showingNarrative := false,
    gameStatus := GameStatus.playing, answered := false, selectedOption := none,
    isCorrect := none, correctAnswers := 0, totalAnswered := 0 }

/-- Two joined students, both playing. -/
def demoStudents : List Student :=
  [ { id := "s1", name := "alice", session_id := none, joined_at := 1,
      status := StudentStatus.playing },
    { id := "s2", name := "bob", session_id := none, joined_at := 2,
      status := StudentStatus.playing } ]

/-- The whole demo state on the final question. -/
def demoWorld : World :=
  { flow := demoFlow, students := demoStudents, session := demoSession,
    responses := [] }

/-- Client of `s1`, already answered. -/
def demoClientAnswered : Client :=
  { userId := "s1", flow := { demoFlow with answered := true } }

/-- Client of `s2`, not yet answered. -/
def demoClientOpen : Client :=
  { userId := "s2", flow := demoFlow }

/-- Two students whose only records tie at one correct answer each; `sA`
answered at time 1, `sB` at time 5, and `sB` joined later than `sA`. -/
def demoStudentA : Student :=
  { id := "sA", name := "A", session_id := none, joined_at := 1,
    status := StudentStatus.playing }

/-- See `demoStudentA`. -/
def demoStudentB : Student :=
  { id := "sB", name := "B", session_id := none, joined_at := 2,
    status := StudentStatus.playing }

/-- See `demoStudentA`. -/
def demoTieLedger : List AnswerRecord :=
  [ { student_id := "sA", question_id := "q1", selected_option := "A",
      is_correct := true, submitted_at := 1 },
    { student_id := "sB", question_id := "q1", selected_option := "A",
      is_correct := true, submitted_at := 5 } ]

/-- A generated question whose topic id is `t`. -/
def demoGenQuestion : GeneratedQuestion :=
  { topicId := "t", stem := "2+2?", optionA := "3", optionB := "4",
    optionC := "5", optionD := "6", correctOption := "A" }

/-- `getOrCreateDefaultGameSession` run against a store holding only the
in-progress session with code `I`, with `Math.random() = 0.5` (digit list
`[18]`). -/
def demoCreateResult : List GameSession × GameSession :=
  getOrCreateDefaultGameSession [demoCollidingSession]
    [(⟨18, by decide⟩ : Fin 36)] none none "sess2" 5

/-- Six random draws that all hit index 0. -/
def demoRandoms : Fin 6 → Fin 32 := fun _ => ⟨0, by decide⟩

end EtherExcel

namespace EtherExcel

/-- C1 counterexample: `submitAnswer` twice for the same (participant,
question) pair.  `saveStudentResponse` is a bare insert, so the second call
inserts a second record instead of failing `AlreadyAnswered`: the pair count
reaches 2, refuting "at most one AnswerRecord ever exists for the pair". -/
theorem C1_second_submission_inserted :
    ¬ (countPair
        (saveStudentResponse
          (saveStudentResponse [] "s1" "q1" "A" true 0) "s1" "q1" "B" false 1)
        "s1" "q1" ≤ 1) := by
  decide

/-- C2 counterexample: `updateGameSessionStatus` applied with `not_started`
to an `in_progress` session moves the status backward — the operation has no
forward-only guard. -/
theorem C2_status_moves_backward :
    demoSession.status = SessionStatus.in_progress ∧
    statusRank (updateGameSessionStatus demoSession SessionStatus.not_started).status
      < statusRank demoSession.status := by
  decide

/-- C2 amended: `updateGameSessionStatus` sets the status field to exactly its
argument (so backward transitions are possible through it) while leaving
`ended_at` alone, and `banStudentFromSession` leaves the session status
unchanged. -/
theorem C2_update_unguarded_ban_preserves_status (session : GameSession)
    (st : SessionStatus) (students : List Student) (studentId : String) :
    (updateGameSessionStatus session st).status = st ∧
    (updateGameSessionStatus session st).ended_at = session.ended_at ∧
    (banStudentFromSession session students studentId).1.status = session.status :=
  ⟨rfl, rfl, rfl⟩

/-- C1 amended: duplicate prevention lives only in the client.  The
`QuestionScreen` buttons dispatch `handleAnswer` only while `answered` is
false, so a second click on the same question is a no-op, and the single
accepted click appends exactly one record for the (participant, question)
pair; the persistence layer itself never rejects with `AlreadyAnswered`. -/
theorem C1_client_single_record (topics : List Topic)
    (questions : List (String × List Question)) (userId : String)
    (n₁ n₂ : Nat) (o₁ o₂ : String) (flow : GameFlowState)
    (responses : List AnswerRecord) (q : Question)
    (hq : getCurrentQuestion topics questions flow = some q)
    (h : flow.answered = false) :
    (optionClick topics questions userId n₂ o₂
        (optionClick topics questions userId n₁ o₁ flow responses).1
        (optionClick topics questions userId n₁ o₁ flow responses).2
      = optionClick topics questions userId n₁ o₁ flow responses) ∧
    countPair (optionClick topics questions userId n₁ o₁ flow responses).2
        userId q.id
      = countPair responses userId q.id + 1 := by
  constructor
  · simp [optionClick, handleAnswer, h, hq]
  · simp [optionClick, handleAnswer, h, hq, countPair, saveStudentResponse,
      List.filter_append]

/-- Witness for `C1_client_single_record` at a concrete client and content
load. -/
theorem C1_client_single_record_witness :
    (optionClick demoTopics demoQuestionMap "s1" 1 "B"
        (optionClick demoTopics demoQuestionMap "s1" 0 "A" demoFlow []).1
        (optionClick demoTopics demoQuestionMap "s1" 0 "A" demoFlow []).2
      = optionClick demoTopics demoQuestionMap "s1" 0 "A" demoFlow []) ∧
    countPair (optionClick demoTopics demoQuestionMap "s1" 0 "A" demoFlow []).2
        "s1" demoQuestion1.id
      = countPair [] "s1" demoQuestion1.id + 1 :=
  C1_client_single_record demoTopics demoQuestionMap "s1" 0 1 "A" "B" demoFlow []
    demoQuestion1 (by decide) (by decide)

/-- Insertion membership: `insertStat` only reorders. -/
theorem mem_insertStat {a p : PlayerStats} {l : List PlayerStats} :
    a ∈ insertStat p l ↔ a = p ∨ a ∈ l := by
  induction l with
  | nil => simp [insertStat]
  | cons q qs ih =>
    simp only [insertStat]
    split
    · simp
    · simp only [List.mem_cons, ih]
      tauto

/-- The sorted leaderboard holds exactly the entries built from the student
list. -/
theorem mem_sortStats {a : PlayerStats} {l : List PlayerStats} :
    a ∈ sortStats l ↔ a ∈ l := by
  induction l with
  | nil => simp [sortStats]
  | cons p ps ih => simp [sortStats, mem_insertStat, ih]

/-- Fusing the per-student response filter with the correctness filter. -/
theorem filter_correct_of_student (l : List AnswerRecord) (sid : String) :
    (l.filter (fun r => r.student_id == sid)).filter (fun r => r.is_correct)
      = l.filter (fun r => r.student_id == sid && r.is_correct) := by
  induction l with
  | nil => rfl
  | cons r rs ih =>
    by_cases h1 : r.student_id == sid <;> by_cases h2 : r.is_correct <;>
      simp [List.filter_cons, h1, h2, ih]

/-- C3: every leaderboard entry `fetchLeaderboardData` emits scores exactly
ten points per correct answer record of that participant — flat credit, no
speed component. -/
theorem C3_score_is_ten_per_correct (totalQuestions : Nat) (students : List Student)
    (responses : List AnswerRecord) (p : PlayerStats)
    (hp : p ∈ fetchLeaderboardData totalQuestions students responses) :
    p.score = 10 * (responses.filter
      (fun r => r.student_id == p.studentId && r.is_correct)).length := by
  rw [fetchLeaderboardData, mem_sortStats, List.mem_map] at hp
  obtain ⟨s, hs, rfl⟩ := hp
  simp only [playerStatsFor, getStudentResponses]
  rw [filter_correct_of_student]
  exact Nat.mul_comm _ 10

/-- Witness for `C3_score_is_ten_per_correct` on the two-student demo
ledger. -/
theorem C3_score_is_ten_per_correct_witness :
    (playerStatsFor 2 demoTieLedger demoStudentA).score
      = 10 * (demoTieLedger.filter
          (fun r => r.student_id == (playerStatsFor 2 demoTieLedger demoStudentA).studentId
            && r.is_correct)).length :=
  C3_score_is_ten_per_correct 2 [demoStudentB, demoStudentA] demoTieLedger
    (playerStatsFor 2 demoTieLedger demoStudentA) (by decide)

/-- C4 counterexample: advancing past the last question of the last topic
takes the invoking client to `results` but leaves the session `in_progress`
with `ended_at` unset, and leaves the other participant un-completed — the
claim's final branch (session `completed`, `endedAt = now`, every participant
`completed`) does not happen. -/
theorem C4_final_question_session_not_completed :
    (moveToNextQuestion demoTopics demoQuestionMap "s1" demoWorld).flow.gameStatus
        = GameStatus.results ∧
    (moveToNextQuestion demoTopics demoQuestionMap "s1" demoWorld).session.status
        ≠ SessionStatus.completed ∧
    (moveToNextQuestion demoTopics demoQuestionMap "s1" demoWorld).session.ended_at
        = none ∧
    (∃ s ∈ (moveToNextQuestion demoTopics demoQuestionMap "s1" demoWorld).students,
        s.status ≠ StudentStatus.completed) := by
  decide

/-- C4 amended: `moveToNextQuestion` moves to the next question while one
remains in the topic, else to the narrative of the next topic while one
remains, else puts the invoking client in `results` and marks only the
invoking participant `completed`; in every branch the session row — its
status and `ended_at` included — is untouched. -/
theorem C4_advance_cases (topics : List Topic)
    (questions : List (String × List Question)) (userId : String) (w : World) :
    (w.flow.currentQuestionIndex <
        (getTopicQuestions questions (getCurrentTopic topics w.flow)).length - 1 →
      (moveToNextQuestion topics questions userId w).flow.currentQuestionIndex
          = w.flow.currentQuestionIndex + 1 ∧
      (moveToNextQuestion topics questions userId w).flow.currentTopicIndex
          = w.flow.currentTopicIndex ∧
      (moveToNextQuestion topics questions userId w).students = w.students ∧
      (moveToNextQuestion topics questions userId w).session = w.session) ∧
    (¬ w.flow.currentQuestionIndex <
        (getTopicQuestions questions (getCurrentTopic topics w.flow)).length - 1 →
      w.flow.currentTopicIndex < topics.length - 1 →
      (moveToNextQuestion topics questions userId w).flow.currentTopicIndex
          = w.flow.currentTopicIndex + 1 ∧
      (moveToNextQuestion topics questions userId w).flow.currentQuestionIndex = 0 ∧
      (moveToNextQuestion topics questions userId w).flow.showingNarrative = true ∧
      (moveToNextQuestion topics questions userId w).students = w.students ∧
      (moveToNextQuestion topics questions userId w).session = w.session) ∧
    (¬ w.flow.currentQuestionIndex <
        (getTopicQuestions questions (getCurrentTopic topics w.flow)).length - 1 →
      ¬ w.flow.currentTopicIndex < topics.length - 1 →
      (moveToNextQuestion topics questions userId w).flow.gameStatus
          = GameStatus.results ∧
      (moveToNextQuestion topics questions userId w).students
          = updateStudentStatus w.students userId StudentStatus.completed ∧
      (moveToNextQuestion topics questions userId w).session = w.session) := by
  refine ⟨fun hq => ?_, fun hq ht => ?_, fun hq ht => ?_⟩
  · simp [moveToNextQuestion, hq]
  · simp [moveToNextQuestion, hq, ht]
  · simp [moveToNextQuestion, hq, ht]

/-- Witness for `C4_advance_cases`: the demo world sits on the last question
of the last topic, so the third branch applies. -/
theorem C4_advance_cases_witness :
    (moveToNextQuestion demoTopics demoQuestionMap "s1" demoWorld).flow.gameStatus
        = GameStatus.results ∧
    (moveToNextQuestion demoTopics demoQuestionMap "s1" demoWorld).students
        = updateStudentStatus demoWorld.students "s1" StudentStatus.completed ∧
    (moveToNextQuestion demoTopics demoQuestionMap "s1" demoWorld).session
        = demoWorld.session :=
  (C4_advance_cases demoTopics demoQuestionMap "s1" demoWorld).2.2
    (by decide) (by decide)

/-- `handleTimeUp` appends exactly the synthesized record, when there is
one. -/
theorem handleTimeUp_responses (topics : List Topic)
    (questions : List (String × List Question)) (now : Nat) (c : Client)
    (responses : List AnswerRecord) :
    (handleTimeUp topics questions c.userId now c.flow responses).2
      = responses ++ (timeoutRecord topics questions now c).toList := by
  by_cases h : c.flow.answered
  · simp [handleTimeUp, timeoutRecord, h]
  · cases hq : getCurrentQuestion topics questions c.flow <;>
      simp [handleTimeUp, timeoutRecord, h, hq, saveStudentResponse]

/-- The ledger after the timeout event is the old ledger plus one synthesized
record per client that lacked an answer. -/
theorem onQuestionTimeout_responses (topics : List Topic)
    (questions : List (String × List Question)) (now : Nat) :
    ∀ (clients : List Client) (responses : List AnswerRecord),
      (onQuestionTimeout topics questions now clients responses).2
        = responses ++ clients.filterMap (timeoutRecord topics questions now) := by
  intro clients
  induction clients with
  | nil => intro responses; simp [onQuestionTimeout]
  | cons c cs ih =>
    intro responses
    simp only [onQuestionTimeout]
    rw [ih, handleTimeUp_responses]
    cases h : timeoutRecord topics questions now c <;>
      simp [h, List.append_assoc]

/-- A synthesized timeout record carries the id of the client it was
synthesized for. -/
theorem timeoutRecord_student_id (topics : List Topic)
    (questions : List (String × List Question)) (now : Nat) (c : Client)
    (r : AnswerRecord) (h : timeoutRecord topics questions now c = some r) :
    r.student_id = c.userId := by
  by_cases ha : c.flow.answered
  · simp [timeoutRecord, ha] at h
  · cases hq : getCurrentQuestion topics questions c.flow
    · simp [timeoutRecord, ha, hq] at h
    · simp [timeoutRecord, ha, hq] at h
      rw [← h]

/-- Clients with other ids contribute no record for this participant. -/
theorem filter_pair_filterMap_not_mem (topics : List Topic)
    (questions : List (String × List Question)) (now : Nat) (uid qid : String) :
    ∀ (cs : List Client), uid ∉ cs.map Client.userId →
      ((cs.filterMap (timeoutRecord topics questions now)).filter
          (fun r => r.student_id == uid && r.question_id == qid)) = [] := by
  intro cs
  induction cs with
  | nil => intro _; rfl
  | cons c rest ih =>
    intro hne
    have hc : c.userId ≠ uid := by
      intro e
      exact hne (by simp [e])
    have hrest : uid ∉ rest.map Client.userId := fun hm => hne (by simp [hm])
    cases h : timeoutRecord topics questions now c with
    | none => simp [List.filterMap_cons, h, ih hrest]
    | some r =>
      have hr := timeoutRecord_student_id topics questions now c r h
      have hf : (r.student_id == uid) = false := by
        rw [hr]
        exact beq_eq_false_iff_ne.mpr hc
      simp [List.filterMap_cons, h, List.filter_cons, hf, ih hrest]

/-- Among clients with pairwise-distinct ids, the timeout event synthesizes
exactly one record for each unanswered client sitting on question `q`. -/
theorem filter_pair_filterMap_mem (topics : List Topic)
    (questions : List (String × List Question)) (now : Nat) (q : Question)
    (c : Client) :
    ∀ (cs : List Client), c ∈ cs → (cs.map Client.userId).Nodup →
      c.flow.answered = false →
      getCurrentQuestion topics questions c.flow = some q →
      ((cs.filterMap (timeoutRecord topics questions now)).filter
          (fun r => r.student_id == c.userId && r.question_id == q.id))
        = [{ student_id := c.userId, question_id := q.id,
             selected_option := "timeout", is_correct := false,
             submitted_at := now }] := by
  intro cs
  induction cs with
  | nil => intro h; cases h
  | cons c₀ rest ih =>
    intro hmem hnodup hans hq
    rw [List.map_cons, List.nodup_cons] at hnodup
    obtain ⟨hnotin, hndrest⟩ := hnodup
    rcases List.mem_cons.mp hmem with rfl | hmem'
    · have hrec : timeoutRecord topics questions now c
          = some { student_id := c.userId, question_id := q.id,
                   selected_option := "timeout", is_correct := false,
                   submitted_at := now } := by
        simp [timeoutRecord, hans, hq]
      simp [List.filterMap_cons, hrec, List.filter_cons,
        filter_pair_filterMap_not_mem topics questions now c.userId q.id rest hnotin]
    · have hcne : c₀.userId ≠ c.userId := by
        intro e
        apply hnotin
        rw [e]
        exact List.mem_map.mpr ⟨c, hmem', rfl⟩
      cases h : timeoutRecord topics questions now c₀ with
      | none =>
        simpa [List.filterMap_cons, h] using ih hmem' hndrest hans hq
      | some r =>
        have hr := timeoutRecord_student_id topics questions now c₀ r h
        have hf : (r.student_id == c.userId) = false := by
          rw [hr]
          exact beq_eq_false_iff_ne.mpr hcne
        simp [List.filterMap_cons, h, List.filter_cons, hf,
          ih hmem' hndrest hans hq]

/-- C5: when the per-question timer expires at every client (the timer is
client-owned, so the logical timeout event is `handleTimeUp` at each one),
every participant who had not answered the current question and had no record
for it ends up with exactly one record — the `'timeout'` sentinel, marked
incorrect.  The continuation in the source is `setTimeout(moveToNextQuestion,
3000)`, the same advance entry point `handleAnswer` schedules. -/
theorem C5_timeout_synthesis (topics : List Topic)
    (questions : List (String × List Question)) (now : Nat)
    (clients : List Client) (responses : List AnswerRecord) (q : Question)
    (c : Client)
    (hnodup : (clients.map Client.userId).Nodup)
    (hc : c ∈ clients)
    (hanswered : c.flow.answered = false)
    (hq : getCurrentQuestion topics questions c.flow = some q)
    (hnone : countPair responses c.userId q.id = 0) :
    ((onQuestionTimeout topics questions now clients responses).2.filter
        (fun r => r.student_id == c.userId && r.question_id == q.id))
      = [{ student_id := c.userId, question_id := q.id,
           selected_option := "timeout", is_correct := false,
           submitted_at := now }] := by
  rw [onQuestionTimeout_responses, List.filter_append]
  rw [countPair] at hnone
  rw [List.length_eq_zero.mp hnone, List.nil_append]
  exact filter_pair_filterMap_mem topics questions now q c clients hc hnodup
    hanswered hq

/-- Witness for `C5_timeout_synthesis`: two clients, one already answered,
one not; the unanswered one gets exactly the sentinel record. -/
theorem C5_timeout_synthesis_witness :
    ((onQuestionTimeout demoTopics demoQuestionMap 7
        [demoClientAnswered, demoClientOpen] []).2.filter
        (fun r => r.student_id == demoClientOpen.userId
          && r.question_id == demoQuestion1.id))
      = [{ student_id := demoClientOpen.userId, question_id := demoQuestion1.id,
           selected_option := "timeout", is_correct := false,
           submitted_at := 7 }] :=
  C5_timeout_synthesis demoTopics demoQuestionMap 7
    [demoClientAnswered, demoClientOpen] [] demoQuestion1 demoClientOpen
    (by decide) (by decide) (by decide) (by decide) (by decide)

/-- C6 counterexample: after `s1` is banned, nothing stops new records —
their still-running client synthesizes a `'timeout'` record on timeout and a
direct answer click still inserts.  The ledger functions never consult
`banned_students`, so "never acquires a new AnswerRecord after the ban" and
"excluded from timeout computation" both fail. -/
theorem C6_banned_still_acquires_records :
    "s1" ∈ (banStudentFromSession demoSession demoStudents "s1").1.banned_students ∧
    (handleTimeUp demoTopics demoQuestionMap "s1" 9 demoFlow []).2
      = [{ student_id := "s1", question_id := "q1", selected_option := "timeout",
           is_correct := false, submitted_at := 9 }] ∧
    countPair (optionClick demoTopics demoQuestionMap "s1" 9 "A" demoFlow []).2
      "s1" "q1" = 1 := by
  decide

/-- C6 amended: the ban adds the id to `banned_students` without duplicating
an already-present id, removes the participant's registry row outright (the
code's realization of `removed`), leaves the session status, the response
ledger and thus every prior AnswerRecord unchanged, and the leaderboard —
which iterates the registry — no longer lists them; but no mechanism prevents
their later submissions or client-side timeout synthesis from inserting new
records. -/
theorem C6_ban_effects (studentId : String) (w : World) (totalQuestions : Nat)
    (responses : List AnswerRecord) :
    studentId ∈ (banStudentWorld studentId w).session.banned_students ∧
    List.count studentId (banStudentWorld studentId w).session.banned_students
      = max (List.count studentId w.session.banned_students) 1 ∧
    (banStudentWorld studentId w).students
      = w.students.filter (fun s => !(s.id == studentId)) ∧
    (banStudentWorld studentId w).session.status = w.session.status ∧
    (banStudentWorld studentId w).responses = w.responses ∧
    (∀ p ∈ fetchLeaderboardData totalQuestions
        (banStudentWorld studentId w).students responses,
      p.studentId ≠ studentId) := by
  refine ⟨?_, ?_, rfl, rfl, rfl, ?_⟩
  · by_cases h : studentId ∈ w.session.banned_students
    · simp [banStudentWorld, banStudentFromSession, h]
    · simp [banStudentWorld, banStudentFromSession, h]
  · by_cases h : studentId ∈ w.session.banned_students
    · have hpos : 1 ≤ List.count studentId w.session.banned_students :=
        List.count_pos_iff.mpr h
      simp [banStudentWorld, banStudentFromSession, h, Nat.max_eq_left hpos]
    · have hz : List.count studentId w.session.banned_students = 0 :=
        List.count_eq_zero.mpr h
      simp [banStudentWorld, banStudentFromSession, h, hz,
        List.count_append]
  · intro p hp
    rw [fetchLeaderboardData, mem_sortStats, List.mem_map] at hp
    obtain ⟨s, hs, rfl⟩ := hp
    have : (s.id == studentId) = false := by
      have hmem := List.mem_filter.mp hs
      simpa using hmem.2
    simp only [playerStatsFor]
    intro e
    rw [e] at this
    simp at this

/-- Witness for `C6_ban_effects`: with `s1` banned from the demo world, the
surviving leaderboard entry is not `s1`'s. -/
theorem C6_ban_effects_witness :
    (playerStatsFor 1 []
        { id := "s2", name := "bob", session_id := none, joined_at := 2,
          status := StudentStatus.playing }).studentId ≠ "s1" :=
  (C6_ban_effects "s1" demoWorld 1 []).2.2.2.2.2
    (playerStatsFor 1 []
      { id := "s2", name := "bob", session_id := none, joined_at := 2,
        status := StudentStatus.playing })
    (by decide)

/-- C7 counterexample: with the session `completed` and `s1` (display name
`alice`) in `banned_students`, `joinAsPlayer` still succeeds — it consults
neither the session status nor the banned list — and a re-join under the name
`alice` creates a brand-new student row instead of returning the existing
one. -/
theorem C7_join_never_rejects :
    demoClosedSession.status = SessionStatus.completed ∧
    "s1" ∈ demoClosedSession.banned_students ∧
    (∃ s ∈ demoStudents, s.id = "s1" ∧ s.name = "alice") ∧
    (joinAsPlayer demoStudents "alice" "s3" 5).1.length
      = demoStudents.length + 1 ∧
    (joinAsPlayer demoStudents "alice" "s3" 5).2 ∉ demoStudents := by
  decide

/-- C7 amended: `joinAsPlayer` performs no `Banned` or `SessionClosed` check
(it takes no session data at all) and unconditionally appends a fresh
participant row carrying the requested display name and a fresh id, so a
re-join yields a new record rather than the existing one. -/
theorem C7_join_always_inserts (students : List Student) (name newId : String)
    (now : Nat) (hfresh : newId ∉ students.map Student.id) :
    (joinAsPlayer students name newId now).1
        = students ++ [(joinAsPlayer students name newId now).2] ∧
    (joinAsPlayer students name newId now).2.name = name ∧
    (joinAsPlayer students name newId now).2.id = newId ∧
    (joinAsPlayer students name newId now).2 ∉ students := by
  refine ⟨rfl, rfl, rfl, fun hmem => hfresh ?_⟩
  exact List.mem_map.mpr ⟨_, hmem, rfl⟩

/-- Witness for `C7_join_always_inserts` on the demo registry. -/
theorem C7_join_always_inserts_witness :
    (joinAsPlayer demoStudents "carol" "s7" 6).1
        = demoStudents ++ [(joinAsPlayer demoStudents "carol" "s7" 6).2] ∧
    (joinAsPlayer demoStudents "carol" "s7" 6).2.name = "carol" ∧
    (joinAsPlayer demoStudents "carol" "s7" 6).2.id = "s7" ∧
    (joinAsPlayer demoStudents "carol" "s7" 6).2 ∉ demoStudents :=
  C7_join_always_inserts demoStudents "carol" "s7" 6 (by decide)

/-- C8 counterexample: for `Math.random() = 0.5` the inline generator of
`getOrCreateDefaultGameSession` yields the one-character, ambiguous code `I`;
the session is inserted although an in-progress (non-completed) session with
the same code already exists — no rejection, no retry. -/
theorem C8_code_short_ambiguous_colliding :
    demoCreateResult.2.game_code = "I" ∧
    demoCreateResult.2.game_code.length ≠ 6 ∧
    demoCreateResult.2.game_code.data.all
        (fun ch => gameCodeChars.contains ch) = false ∧
    demoCreateResult.2.game_code = demoCollidingSession.game_code ∧
    demoCollidingSession.status ≠ SessionStatus.completed ∧
    demoCreateResult.2.status ≠ SessionStatus.completed ∧
    demoCreateResult.1 = [demoCollidingSession, demoCreateResult.2] := by
  decide

/-- C8 amended: the dedicated `generateGameCode` always emits exactly six
characters from the 32-character unambiguous alphabet, but the creation path
performs no uniqueness check: when no `not_started` session exists,
`getOrCreateDefaultGameSession` inserts a session whose code is whatever the
inline `Math.random().toString(36)` generator produced, regardless of the
codes already in the store (and that inline generator can emit short or
ambiguous codes, per the counterexample). -/
theorem C8_codegen_no_collision_check (randoms : Fin 6 → Fin 32)
    (sessions : List GameSession) (digits : List (Fin 36))
    (chapterId : Option String) (teacherName : Option String) (newId : String)
    (now : Nat) (hns : ∀ s ∈ sessions, s.status ≠ SessionStatus.not_started) :
    (generateGameCode randoms).length = 6 ∧
    (generateGameCode randoms).data.all
        (fun ch => gameCodeChars.contains ch) = true ∧
    (getOrCreateDefaultGameSession sessions digits chapterId teacherName
        newId now).1
      = sessions ++ [(getOrCreateDefaultGameSession sessions digits chapterId
          teacherName newId now).2] ∧
    (getOrCreateDefaultGameSession sessions digits chapterId teacherName newId
        now).2.game_code = jsGameCode digits := by
  have hfilter :
      sessions.filter (fun s => s.status == SessionStatus.not_started) = [] := by
    rw [List.filter_eq_nil_iff]
    intro s hs
    simpa using hns s hs
  have hlatest : latestNotStarted sessions = none := by
    rw [latestNotStarted, hfilter]
    rfl
  refine ⟨?_, ?_, ?_, ?_⟩
  · simp [generateGameCode, String.length]
  · rw [List.all_eq_true]
    intro ch hch
    rw [show (generateGameCode randoms).data
        = List.ofFn (fun i : Fin 6 =>
            gameCodeChars.get (Fin.cast (by decide) (randoms i))) from rfl,
      List.mem_ofFn] at hch
    obtain ⟨i, rfl⟩ := hch
    exact List.elem_iff.mpr (List.get_mem _ _ _)
  · simp [getOrCreateDefaultGameSession, hlatest]
  · simp [getOrCreateDefaultGameSession, hlatest]

/-- Witness for `C8_codegen_no_collision_check` at the demo store. -/
theorem C8_codegen_no_collision_check_witness :
    (generateGameCode demoRandoms).length = 6 ∧
    (generateGameCode demoRandoms).data.all
        (fun ch => gameCodeChars.contains ch) = true ∧
    demoCreateResult.1 = [demoCollidingSession] ++ [demoCreateResult.2] ∧
    demoCreateResult.2.game_code = jsGameCode [(⟨18, by decide⟩ : Fin 36)] :=
  C8_codegen_no_collision_check demoRandoms [demoCollidingSession]
    [(⟨18, by decide⟩ : Fin 36)] none none "sess2" 5 (by decide)

/-- C9 counterexample: over the same record set (`sA` correct at time 1,
`sB` correct at time 5, scores tied), the leaderboard order flips with the
iteration order of the student store, and with the registry's actual order
(`joined_at` descending) the later joiner `sB` is listed first even though
`sA` reached the tied score earlier — so the order is neither
input-independent nor broken by earliest score time. -/
theorem C9_order_depends_on_registry_order :
    fetchLeaderboardData 2 [demoStudentB, demoStudentA] demoTieLedger
      ≠ fetchLeaderboardData 2 [demoStudentA, demoStudentB] demoTieLedger ∧
    (fetchLeaderboardData 2 (getAllStudents [demoStudentA, demoStudentB])
        demoTieLedger).map PlayerStats.studentId = ["sB", "sA"] ∧
    (playerStatsFor 2 demoTieLedger demoStudentA).score
      = (playerStatsFor 2 demoTieLedger demoStudentB).score ∧
    (∀ r ∈ demoTieLedger, r.student_id = "sA" → r.submitted_at = 1) ∧
    (∀ r ∈ demoTieLedger, r.student_id = "sB" → r.submitted_at = 5) := by
  decide

/-- Inserting into a score-descending list keeps it score-descending. -/
theorem pairwise_insertStat (p : PlayerStats) (l : List PlayerStats)
    (h : List.Pairwise (fun a b => b.score ≤ a.score) l) :
    List.Pairwise (fun a b => b.score ≤ a.score) (insertStat p l) := by
  induction l with
  | nil => simp [insertStat]
  | cons q qs ih =>
    rw [List.pairwise_cons] at h
    obtain ⟨hq, hqs⟩ := h
    simp only [insertStat]
    split
    · rename_i hle
      rw [List.pairwise_cons]
      refine ⟨fun x hx => ?_, List.pairwise_cons.mpr ⟨hq, hqs⟩⟩
      rcases List.mem_cons.mp hx with rfl | hx'
      · exact hle
      · exact le_trans (hq x hx') hle
    · rename_i hgt
      rw [List.pairwise_cons]
      refine ⟨fun x hx => ?_, ih hqs⟩
      rcases mem_insertStat.mp hx with rfl | hx'
      · exact le_of_not_le hgt
      · exact hq x hx'

/-- The sorted leaderboard is score-descending. -/
theorem pairwise_sortStats (l : List PlayerStats) :
    List.Pairwise (fun a b => b.score ≤ a.score) (sortStats l) := by
  induction l with
  | nil => simp [sortStats]
  | cons p ps ih => exact pairwise_insertStat p _ ih

/-- Stability of the insertion, per score class. -/
theorem filter_score_insertStat (p : PlayerStats) (n : Nat) (l : List PlayerStats) :
    (insertStat p l).filter (fun x => x.score == n)
      = if p.score == n then p :: l.filter (fun x => x.score == n)
        else l.filter (fun x => x.score == n) := by
  induction l with
  | nil => cases hpn : (p.score == n) <;> simp [insertStat, List.filter, hpn]
  | cons q qs ih =>
    simp only [insertStat]
    split
    · rw [List.filter_cons]
    · rename_i hgt
      by_cases hp : p.score = n
      · by_cases hqn : q.score = n
        · exact absurd (le_of_eq (hqn.trans hp.symm)) hgt
        · simp [List.filter_cons, ih, hp, hqn]
      · by_cases hqn : q.score = n
        · simp [List.filter_cons, ih, hp, hqn]
        · simp [List.filter_cons, ih, hp, hqn]

/-- Per score class, the sorted list keeps the input order. -/
theorem filter_score_sortStats (n : Nat) (l : List PlayerStats) :
    (sortStats l).filter (fun x => x.score == n)
      = l.filter (fun x => x.score == n) := by
  induction l with
  | nil => rfl
  | cons p ps ih =>
    simp only [sortStats]
    rw [filter_score_insertStat, ih, List.filter_cons]

/-- C9 amended: the leaderboard is a pure function of the student list and
the record set — ordered by score descending, ties kept in the order of the
student list as fetched (`joined_at` descending), not by when the tied score
was reached; determinism therefore holds only relative to a fixed student
list order.  The second conjunct pins the tie order: within each score class
the output equals the input order. -/
theorem C9_sorted_stable_by_input_order (totalQuestions : Nat)
    (students : List Student) (responses : List AnswerRecord) :
    List.Pairwise (fun a b => b.score ≤ a.score)
        (fetchLeaderboardData totalQuestions students responses) ∧
    ∀ n : Nat,
      (fetchLeaderboardData totalQuestions students responses).filter
          (fun p => p.score == n)
        = (students.map (playerStatsFor totalQuestions responses)).filter
          (fun p => p.score == n) :=
  ⟨pairwise_sortStats _, fun n => filter_score_sortStats n _⟩

/-- C10 counterexample: a question whose topic id HAS an entry in
`topicIdMap` — mapped to the empty string — is still dropped, because the
source filters on JS truthiness of `topicIdMap[q.topicId]` and `''` is falsy.
"Drops exactly those questions whose topicId has no entry" is therefore
false. -/
theorem C10_entry_with_empty_value_dropped :
    recordGet [("t", "")] "t" = some "" ∧
    saveQuestions [demoGenQuestion] [("t", "")] = [] := by
  decide

/-- Concatenating the batch slices restores the list. -/
theorem flatten_batchesOf20 (l : List FormattedQuestion) :
    (batchesOf20 l).flatten = l := by
  induction l using batchesOf20.induct with
  | case1 => simp [batchesOf20]
  | case2 x xs ih =>
    rw [batchesOf20]
    simp only [List.flatten_cons]
    rw [ih, List.take_append_drop]

/-- Folding append over the batches is their concatenation. -/
theorem foldl_append_eq_flatten (bs : List (List FormattedQuestion)) :
    ∀ acc : List FormattedQuestion,
      bs.foldl (fun allData batch => allData ++ batch) acc = acc ++ bs.flatten := by
  induction bs with
  | nil => intro acc; simp
  | cons b rest ih => intro acc; simp [ih, List.append_assoc]

/-- C10 amended: `saveQuestions` keeps exactly the questions whose
`topicIdMap` entry exists and is nonempty (JS truthiness of
`topicIdMap[q.topicId]`), writes their formatted rows, and the batched path
(slices of 20 once more than 50 rows remain) returns, element for element,
what the single insert returns. -/
theorem C10_saveQuestions_batched_eq_single (questions : List GeneratedQuestion)
    (topicIdMap : List (String × String)) :
    saveQuestions questions topicIdMap
      = (questions.filter (fun q => truthyLookup topicIdMap q.topicId)).map
          (formatQuestion topicIdMap) := by
  simp only [saveQuestions]
  split
  · rw [foldl_append_eq_flatten, List.nil_append, flatten_batchesOf20]
  · rfl

end EtherExcel
